import Mathlib

/-!
Verification development for the `xredis` client library (package `redis`).

The Go source is shallowly embedded: pure configuration resolution becomes
pure Lean functions; operations that talk to the Redis backend are modelled
as functions from the backend's observable responses (sub-result errors,
decode results) to the command trace the client sends plus the value/error
the client returns.  Go `int` and `time.Duration` are embedded as `Int`,
Go strings as `String` (Go `len` on a string is the UTF-8 byte length,
embedded as `String.utf8ByteSize`).
-/

/-- Errors observable through the client API.  `redisNil` is the backend's
missing-value sentinel (`rdb.Nil`); `keyNotFound` is the package-level
`ErrKeyNotFound`; `invalidFieldType` is `ErrInvalidFieldType`; `backend n`
stands for any other backend-reported error, indexed opaquely. -/
inductive GoError where
  | redisNil
  | keyNotFound
  | invalidFieldType
  | backend (code : Nat)
deriving DecidableEq, Repr

/-- Alias for `Bool` usable inside the `Redis` namespace after the
`Redis.Bool` accessor is declared. -/
abbrev GoBool := Bool

/-- Alias for `Int` usable inside the `Redis` namespace after the
`Redis.Int` accessor is declared. -/
abbrev GoInt := Int

/-- Alias for `String` usable inside the `Redis` namespace after the
`Redis.String` accessor is declared. -/
abbrev GoString := String

/-- `reflect.Kind` from the Go reflect package. -/
inductive Kind where
  | invalid | bool | int | int8 | int16 | int32 | int64
  | uint | uint8 | uint16 | uint32 | uint64 | uintptr
  | float32 | float64 | complex64 | complex128
  | array | chan | func | interface | map | pointer | slice
  | string | struct | unsafePointer
deriving DecidableEq, Repr

/-- A Go value seen through `reflect.ValueOf`: its dynamic kind plus an
opaque payload distinguishing values of the same kind. -/
structure GoAny where
  kind : Kind
  val : Nat
deriving DecidableEq, Repr

/-- The kinds rejected by the `switch v.Kind()` in `HSet` / `HSetObject`
(`client.go`): `Invalid, Pointer, Array, Map, Struct, Slice, Func, Chan,
UnsafePointer`. -/
def Redis.invalidKind : Kind → Bool
  | Kind.invalid | Kind.pointer | Kind.array | Kind.map | Kind.struct
  | Kind.slice | Kind.func | Kind.chan | Kind.unsafePointer => true
  | _ => false

/-- Helper for `Redis.goSplit`: walks the characters, cutting at each
separator occurrence; `acc` holds the current chunk reversed. -/
def Redis.goSplitAux (sep : Char) : List Char → List Char → List String
  | [], acc => [String.mk acc.reverse]
  | c :: cs, acc =>
    if c = sep then String.mk acc.reverse :: Redis.goSplitAux sep cs []
    else Redis.goSplitAux sep cs (c :: acc)

/-- Go's `strings.Split(s, sep)` for a one-character separator: splits `s`
around every occurrence of `sep`; the result always has at least one
element (`strings.Split("", ",") = [""]`). -/
def Redis.goSplit (s : String) (sep : Char) : List String :=
  Redis.goSplitAux sep s.data []

/-- The configuration record `Config` of `options.go`.  Durations and Go
`int`s are embedded as `Int`. -/
structure Config where
  Network : String
  Addrs : String
  Protocol : Int
  Username : String
  Password : String
  DB : Int
  MaxRedirects : Int
  ReadOnly : Bool
  RouteByLatency : Bool
  RouteRandomly : Bool
  MaxRetries : Int
  MinRetryBackoff : Int
  MaxRetryBackoff : Int
  DialTimeout : Int
  ReadTimeout : Int
  WriteTimeout : Int
  ContextTimeoutEnabled : Bool
  PoolFIFO : Bool
  PoolSize : Int
  PoolTimeout : Int
  MinIdleConns : Int
  MaxIdleConns : Int
  MaxActiveConns : Int
  ConnMaxIdleTime : Int
  ConnMaxLifetime : Int
  DisableIndentity : Bool
  UnstableResp3 : Bool
deriving DecidableEq, Repr

/-- `rdb.Options`, the single-node connection policy, restricted to the
fields `parseClientConfig` can touch.  It has no
ReadOnly/RouteByLatency/RouteRandomly/MaxRedirects fields: those are
cluster-only. -/
structure Options where
  Network : String
  Addr : String
  Protocol : Int
  Username : String
  Password : String
  DB : Int
  MaxRetries : Int
  MinRetryBackoff : Int
  MaxRetryBackoff : Int
  DialTimeout : Int
  ReadTimeout : Int
  WriteTimeout : Int
  ContextTimeoutEnabled : Bool
  PoolFIFO : Bool
  PoolSize : Int
  PoolTimeout : Int
  MinIdleConns : Int
  MaxIdleConns : Int
  MaxActiveConns : Int
  ConnMaxIdleTime : Int
  ConnMaxLifetime : Int
  DisableIndentity : Bool
  UnstableResp3 : Bool
deriving DecidableEq, Repr

/-- `rdb.ClusterOptions`, the multi-node connection policy, restricted to
the fields `parseClusterConfig` can touch. -/
structure ClusterOptions where
  Addrs : List String
  Protocol : Int
  Username : String
  Password : String
  RouteByLatency : Bool
  RouteRandomly : Bool
  ReadOnly : Bool
  MaxRedirects : Int
  MaxRetries : Int
  MinRetryBackoff : Int
  MaxRetryBackoff : Int
  DialTimeout : Int
  ReadTimeout : Int
  WriteTimeout : Int
  ContextTimeoutEnabled : Bool
  PoolFIFO : Bool
  PoolSize : Int
  PoolTimeout : Int
  MinIdleConns : Int
  MaxIdleConns : Int
  MaxActiveConns : Int
  ConnMaxIdleTime : Int
  ConnMaxLifetime : Int
  DisableIndentity : Bool
deriving DecidableEq, Repr

/-- `parseClientConfig` (`options.go`): the struct literal copies the listed
fields; `strings.Split(cfg.Addrs, ",")` always has at least one element, so
the `len(addrs) > 0` guard always takes the first element; `Protocol` is
set only when `cfg.Protocol > 0` (otherwise it keeps the Go zero value 0). -/
def Redis.parseClientConfig (cfg : Config) : Options :=
  let addrs := Redis.goSplit cfg.Addrs ','
  { Network := cfg.Network
    Addr := match addrs with
            | [] => ""
            | a :: _ => a
    Protocol := if cfg.Protocol > 0 then cfg.Protocol else 0
    Username := cfg.Username
    Password := cfg.Password
    DB := cfg.DB
    MaxRetries := cfg.MaxRetries
    MinRetryBackoff := cfg.MinRetryBackoff
    MaxRetryBackoff := cfg.MaxRetryBackoff
    DialTimeout := cfg.DialTimeout
    ReadTimeout := cfg.ReadTimeout
    WriteTimeout := cfg.WriteTimeout
    ContextTimeoutEnabled := cfg.ContextTimeoutEnabled
    PoolFIFO := cfg.PoolFIFO
    PoolSize := cfg.PoolSize
    PoolTimeout := cfg.PoolTimeout
    MinIdleConns := cfg.MinIdleConns
    MaxIdleConns := cfg.MaxIdleConns
    MaxActiveConns := cfg.MaxActiveConns
    ConnMaxIdleTime := cfg.ConnMaxIdleTime
    ConnMaxLifetime := cfg.ConnMaxLifetime
    DisableIndentity := cfg.DisableIndentity
    UnstableResp3 := cfg.UnstableResp3 }

/-- `parseClusterConfig` (`options.go`): the struct literal leaves
`MaxRedirects` at its Go zero value 0; the trailing `if cfg.MaxRedirects == 0`
sets it to `len(cfg.Addrs) + 1` — note `cfg.Addrs` is the *string*, so Go's
`len` is its byte length (`String.utf8ByteSize`), not the address count.
`Protocol` is set only when `cfg.Protocol > 0`. -/
def Redis.parseClusterConfig (cfg : Config) : ClusterOptions :=
  { Addrs := Redis.goSplit cfg.Addrs ','
    Protocol := if cfg.Protocol > 0 then cfg.Protocol else 0
    Username := cfg.Username
    Password := cfg.Password
    RouteByLatency := cfg.RouteByLatency
    RouteRandomly := cfg.RouteRandomly
    ReadOnly := cfg.ReadOnly
    MaxRedirects := if cfg.MaxRedirects = 0 then (cfg.Addrs.utf8ByteSize : Int) + 1 else 0
    MaxRetries := cfg.MaxRetries
    MinRetryBackoff := cfg.MinRetryBackoff
    MaxRetryBackoff := cfg.MaxRetryBackoff
    DialTimeout := cfg.DialTimeout
    ReadTimeout := cfg.ReadTimeout
    WriteTimeout := cfg.WriteTimeout
    ContextTimeoutEnabled := cfg.ContextTimeoutEnabled
    PoolFIFO := cfg.PoolFIFO
    PoolSize := cfg.PoolSize
    PoolTimeout := cfg.PoolTimeout
    MinIdleConns := cfg.MinIdleConns
    MaxIdleConns := cfg.MaxIdleConns
    MaxActiveConns := cfg.MaxActiveConns
    ConnMaxIdleTime := cfg.ConnMaxIdleTime
    ConnMaxLifetime := cfg.ConnMaxLifetime
    DisableIndentity := cfg.DisableIndentity }

/-- `defaultConfig` (`options.go`): one local address, read-only routing on,
everything else at its Go zero value. -/
def Redis.defaultConfig : Config :=
  { Network := ""
    Addrs := "127.0.0.1:6379"
    Protocol := 0
    Username := ""
    Password := ""
    DB := 0
    MaxRedirects := 0
    ReadOnly := true
    RouteByLatency := false
    RouteRandomly := false
    MaxRetries := 0
    MinRetryBackoff := 0
    MaxRetryBackoff := 0
    DialTimeout := 0
    ReadTimeout := 0
    WriteTimeout := 0
    ContextTimeoutEnabled := false
    PoolFIFO := false
    PoolSize := 0
    PoolTimeout := 0
    MinIdleConns := 0
    MaxIdleConns := 0
    MaxActiveConns := 0
    ConnMaxIdleTime := 0
    ConnMaxLifetime := 0
    DisableIndentity := false
    UnstableResp3 := false }


/-- A command enqueued on a pipeline by the client. -/
inductive Cmd where
  | hset (key field : String) (value : GoAny)
  | expire (key : String) (ttl : Int)
  | del (keys : List String)
deriving DecidableEq, Repr

/-- The sub-result inspection loop shared by `HSet`, `HSetObject` and
`MassDelete` (`client.go`): `for _, cmd := range cmder { if err = cmd.Err();
err != nil { return } }` — returns the first non-nil sub-result error, nil
when none is found. -/
def Redis.firstCmdErr : List (Option GoError) → Option GoError
  | [] => none
  | some e :: _ => some e
  | none :: rest => Redis.firstCmdErr rest

/-- `HSet` (`client.go`): creates a transactional pipeline, rejects the
value when its reflect kind is in the invalid set (returning
`ErrInvalidFieldType` before anything is enqueued or executed), otherwise
enqueues `HSET` then `EXPIRE`, executes the batch, and returns `Exec`'s
error or else the first sub-result error.  The backend's behaviour is an
input: `execErr` is what `pipe.Exec` returns, `cmdErrs` the sub-result
errors in the order the backend returned them.  The first component is the
list of batches actually executed against the backend (empty = zero
backend calls). -/
def Redis.HSet (key field : String) (value : GoAny) (ttl : Int)
    (execErr : Option GoError) (cmdErrs : List (Option GoError)) :
    List (List Cmd) × Option GoError :=
  if Redis.invalidKind value.kind then ([], some GoError.invalidFieldType)
  else
    let batch := [Cmd.hset key field value, Cmd.expire key ttl]
    match execErr with
    | some e => ([batch], some e)
    | none => ([batch], Redis.firstCmdErr cmdErrs)

/-- One field of a Go struct as seen by `HSetObject`'s reflection loop:
`tag` is the result of `Tag.Lookup("redis")` (`none` when the field has no
`redis` tag), `value` the field's value. -/
structure GoStructField where
  tag : Option String
  value : GoAny
deriving DecidableEq, Repr

/-- The field loop of `HSetObject` (`client.go`): for each field whose
`redis` tag is present and not `"-"`, validate the field's kind (aborting
the whole call with `ErrInvalidFieldType` on the first invalid one) and
enqueue `HSET key tagValue fieldValue`. -/
def Redis.hsetObjectCmds (key : String) : List GoStructField → Except GoError (List Cmd)
  | [] => Except.ok []
  | f :: rest =>
    match f.tag with
    | some tagValue =>
      if tagValue ≠ "-" then
        if Redis.invalidKind f.value.kind then Except.error GoError.invalidFieldType
        else
          match Redis.hsetObjectCmds key rest with
          | Except.error e => Except.error e
          | Except.ok cs => Except.ok (Cmd.hset key tagValue f.value :: cs)
      else Redis.hsetObjectCmds key rest
    | none => Redis.hsetObjectCmds key rest

/-- `HSetObject` (`client.go`) on a value whose dynamic type is a struct,
the struct given as its field list in declaration order: runs the field
loop, appends the trailing `EXPIRE`, executes the batch, and returns
`Exec`'s error or else the first sub-result error.  As in `Redis.HSet`,
the backend's responses are inputs and the first component is the list of
executed batches. -/
def Redis.HSetObject (key : String) (fields : List GoStructField) (ttl : Int)
    (execErr : Option GoError) (cmdErrs : List (Option GoError)) :
    List (List Cmd) × Option GoError :=
  match Redis.hsetObjectCmds key fields with
  | Except.error e => ([], some e)
  | Except.ok cs =>
    let batch := cs ++ [Cmd.expire key ttl]
    match execErr with
    | some e => ([batch], some e)
    | none => ([batch], Redis.firstCmdErr cmdErrs)

/-- `MassDelete` (`client.go`): pipelines a single `DEL` of all keys; the
inspection loop assigns `err = cmder.Err()` on every iteration and returns
on the first non-nil one, so with a non-empty sub-result list the returned
error is the first sub-result error (nil when none); with an empty
sub-result list the error from `Pipelined` itself is returned. -/
def Redis.MassDelete (keys : List String)
    (pipeErr : Option GoError) (cmdErrs : List (Option GoError)) :
    List Cmd × Option GoError :=
  ([Cmd.del keys],
   match cmdErrs with
   | [] => pipeErr
   | _ :: _ => Redis.firstCmdErr cmdErrs)

/-- `Get` (`client.go`): `Scan` into the destination; a `rdb.Nil` error
becomes `ErrKeyNotFound`, any other error is returned unchanged, success
returns nil.  The backend's `Scan` outcome is the input. -/
def Redis.Get (scanErr : Option GoError) : Option GoError :=
  match scanErr with
  | some GoError.redisNil => some GoError.keyNotFound
  | some e => some e
  | none => none

/-- `HGet` (`client.go`): same sentinel mapping as `Redis.Get`. -/
def Redis.HGet (scanErr : Option GoError) : Option GoError :=
  match scanErr with
  | some GoError.redisNil => some GoError.keyNotFound
  | some e => some e
  | none => none

/-- `HGetAll` (`client.go`): a command error is returned unchanged; an
empty result map returns `ErrKeyNotFound`; otherwise the result of
`res.Scan(dst)` is returned as-is.  Inputs are the backend's command
error, the returned field map (as an association list) and the `Scan`
outcome. -/
def Redis.HGetAll (resErr : Option GoError) (resVal : List (String × String))
    (scanErr : Option GoError) : Option GoError :=
  match resErr with
  | some e => some e
  | none =>
    if resVal.length = 0 then some GoError.keyNotFound
    else scanErr

/-- An IEEE-754 double carried opaquely by its bit pattern; the client
never computes on it, only passes it through. -/
structure GoFloat64 where
  bits : Nat
deriving DecidableEq, Repr

/-- `Bool` accessor (`client.go`): input is the `(val, err)` pair the
backend's `res.Bool()` decode produced; on `rdb.Nil` the error is cleared
and `ok` stays false, any other error is returned with `ok` false, and on
success `ok` is set to true. -/
def Redis.Bool (decoded : Bool × Option GoError) : Bool × Bool × Option GoError :=
  match decoded with
  | (v, some GoError.redisNil) => (v, false, none)
  | (v, some e) => (v, false, some e)
  | (v, none) => (v, true, none)

/-- `Bytes` accessor (`client.go`): same error protocol as `Redis.Bool`,
over the backend's `res.Bytes()` decode. -/
def Redis.Bytes (decoded : List Nat × Option GoError) : List Nat × GoBool × Option GoError :=
  match decoded with
  | (v, some GoError.redisNil) => (v, false, none)
  | (v, some e) => (v, false, some e)
  | (v, none) => (v, true, none)

/-- `Float64` accessor (`client.go`): same error protocol, over the
backend's `res.Float64()` decode. -/
def Redis.Float64 (decoded : GoFloat64 × Option GoError) : GoFloat64 × GoBool × Option GoError :=
  match decoded with
  | (v, some GoError.redisNil) => (v, false, none)
  | (v, some e) => (v, false, some e)
  | (v, none) => (v, true, none)

/-- `Int` accessor (`client.go`): same error protocol, over the backend's
`res.Int()` decode. -/
def Redis.Int (decoded : Int × Option GoError) : Int × GoBool × Option GoError :=
  match decoded with
  | (v, some GoError.redisNil) => (v, false, none)
  | (v, some e) => (v, false, some e)
  | (v, none) => (v, true, none)

/-- `Int64` accessor (`client.go`): same error protocol, over the
backend's `res.Int64()` decode. -/
def Redis.Int64 (decoded : GoInt × Option GoError) : GoInt × GoBool × Option GoError :=
  match decoded with
  | (v, some GoError.redisNil) => (v, false, none)
  | (v, some e) => (v, false, some e)
  | (v, none) => (v, true, none)

/-- `Uint64` accessor (`client.go`): same error protocol, over the
backend's `res.Uint64()` decode. -/
def Redis.Uint64 (decoded : Nat × Option GoError) : Nat × GoBool × Option GoError :=
  match decoded with
  | (v, some GoError.redisNil) => (v, false, none)
  | (v, some e) => (v, false, some e)
  | (v, none) => (v, true, none)

/-- `String` accessor (`client.go`): same error protocol, over the
backend's `res.Result()`. -/
def Redis.String (decoded : String × Option GoError) : String × GoBool × Option GoError :=
  match decoded with
  | (v, some GoError.redisNil) => (v, false, none)
  | (v, some e) => (v, false, some e)
  | (v, none) => (v, true, none)

/-- Construction-time events observable at the backend boundary:
`connOpen` is `rdb.NewClient` / `rdb.NewClusterClient`, `instrTracing` is
`redisotel.InstrumentTracing`, `instrMetrics` is
`redisotel.InstrumentMetrics`, `ping` is `conn.Ping`. -/
inductive Ev where
  | connOpen
  | instrTracing
  | instrMetrics
  | ping
deriving DecidableEq, Repr

/-- `exposeInstrumenting` (`client.go`): installs tracing instrumentation
first, returning its error on failure; then metrics instrumentation,
returning its error on failure.  Inputs are the two install outcomes;
output is the events performed and the returned error. -/
def Redis.exposeInstrumenting (tracingErr metricsErr : Option GoError) :
    List Ev × Option GoError :=
  match tracingErr with
  | some e => ([Ev.instrTracing], some e)
  | none =>
    match metricsErr with
    | some e => ([Ev.instrTracing, Ev.instrMetrics], some e)
    | none => ([Ev.instrTracing, Ev.instrMetrics], none)

/-- `newClient` (`client.go`) reduced to its backend-visible control flow:
open the connection, call `exposeInstrumenting` once (aborting on its
error), then ping (aborting on its error).  Inputs are the outcomes of the
two instrumentation installs and of the ping; output is the event trace
and whether construction succeeded. -/
def Redis.newClient (tracingErr metricsErr pingErr : Option GoError) :
    List Ev × GoBool :=
  let instr := Redis.exposeInstrumenting tracingErr metricsErr
  match instr.2 with
  | some _ => (Ev.connOpen :: instr.1, false)
  | none =>
    match pingErr with
    | some _ => (Ev.connOpen :: instr.1 ++ [Ev.ping], false)
    | none => (Ev.connOpen :: instr.1 ++ [Ev.ping], true)

/-- Modelled from the spec: `GenerateUUID` — its source file is absent from
`src/` (only callers are present); the spec describes it as producing "a
freshly generated globally-unique token (e.g., UUID-v4)".  Modelled as a
generator threading a state: each call renders a token distinct from every
other state's token and advances the state. -/
def Redis.GenerateUUID (gen : Nat) : GoString × Nat :=
  (Nat.repr gen, gen + 1)

/-- `getID` (`client.go`): when no explicit id was stored, a fresh token is
generated on every call (nothing is cached); otherwise the stored id is
returned unchanged and the generator state is untouched. -/
def Redis.getID (id : GoString) (gen : Nat) : GoString × Nat :=
  if id = "" then Redis.GenerateUUID gen else (id, gen)

/-- `WithClientID` (`options.go`): when the supplied id is non-empty,
stores `fmt.Sprintf("%s-%s", id, GenerateUUID())` as the client's id;
otherwise leaves the current id `cid` unchanged. -/
def Redis.WithClientID (id : GoString) (cid : GoString) (gen : Nat) : GoString × Nat :=
  if id ≠ "" then
    let u := Redis.GenerateUUID gen
    (id ++ "-" ++ u.1, u.2)
  else (cid, gen)

/-- Outcome of running a Go function that may panic. -/
inductive Outcome (α : Type) where
  | ok (a : α)
  | panic
deriving DecidableEq, Repr

/-- One field of a Go struct with the attributes `HSetObject`'s loop can
observe: the `redis` tag lookup result, whether the field is exported
(`reflect.Value.Interface` panics on a value obtained from an unexported
field), and the field's value. -/
structure GoField where
  tag : Option String
  exported : Bool
  value : GoAny
deriving DecidableEq, Repr

/-- A value passed as `HSetObject`'s `data any` argument: either a struct
(given by its reflected field list in declaration order) or a value of
any non-struct dynamic type (opaquely indexed). -/
inductive GoData where
  | structVal (fields : List GoField)
  | nonStruct (v : Nat)
deriving DecidableEq, Repr

/-- The field loop of `HSetObject` (`client.go`) with Go's panic behaviour
kept: for each field whose `redis` tag is present and not `"-"`, the kind
check runs first (aborting with `ErrInvalidFieldType` on an invalid kind);
then `v.Field(i).Interface()` is evaluated for the `pipe.HSet` argument,
which panics when the field is unexported; otherwise the `HSET` is
enqueued and the loop continues.  Untagged and excluded fields are skipped
without validation. -/
def Redis.hsetObjectFieldLoop (key : GoString) :
    List GoField → Outcome (Except GoError (List Cmd))
  | [] => Outcome.ok (Except.ok [])
  | f :: rest =>
    match f.tag with
    | some tagValue =>
      if tagValue ≠ "-" then
        if Redis.invalidKind f.value.kind then
          Outcome.ok (Except.error GoError.invalidFieldType)
        else if f.exported = false then Outcome.panic
        else
          match Redis.hsetObjectFieldLoop key rest with
          | Outcome.panic => Outcome.panic
          | Outcome.ok (Except.error e) => Outcome.ok (Except.error e)
          | Outcome.ok (Except.ok cs) =>
            Outcome.ok (Except.ok (Cmd.hset key tagValue f.value :: cs))
      else Redis.hsetObjectFieldLoop key rest
    | none => Redis.hsetObjectFieldLoop key rest

/-- `HSetObject` (`client.go`) on an arbitrary `data any` argument:
`reflect.TypeOf(data).NumField()` panics whenever `data`'s dynamic type is
not a struct (per the reflect package contract), so the call never reaches
validation, batch building or the backend; on a struct the field loop runs
(and can itself panic on an unexported tagged field), then the trailing
`EXPIRE` is appended, the batch executed, and `Exec`'s error or the first
sub-result error returned, exactly as in `Redis.HSetObject`. -/
def Redis.HSetObjectAny (key : GoString) (data : GoData) (ttl : GoInt)
    (execErr : Option GoError) (cmdErrs : List (Option GoError)) :
    Outcome (List (List Cmd) × Option GoError) :=
  match data with
  | GoData.structVal fields =>
    match Redis.hsetObjectFieldLoop key fields with
    | Outcome.panic => Outcome.panic
    | Outcome.ok (Except.error e) => Outcome.ok ([], some e)
    | Outcome.ok (Except.ok cs) =>
      let batch := cs ++ [Cmd.expire key ttl]
      match execErr with
      | some e => Outcome.ok ([batch], some e)
      | none => Outcome.ok ([batch], Redis.firstCmdErr cmdErrs)
  | GoData.nonStruct _ => Outcome.panic


/-- `Redis.firstCmdErr` returns exactly the head of the list of non-nil
sub-result errors, in the order the backend returned them. -/
theorem Redis.firstCmdErr_eq_head_filterMap (l : List (Option GoError)) :
    Redis.firstCmdErr l = (l.filterMap id).head? := by
  induction l with
  | nil => rfl
  | cons e rest ih => cases e <;> simp [Redis.firstCmdErr, ih]

/-- C1: `parseClusterConfig` with an unset (zero) `MaxRedirects` and address
field `"a:1,b:2,c:3"` sets the redirect budget to `len("a:1,b:2,c:3") + 1 =
12` — the byte length of the address *string* plus one — while the number
of comma-separated addresses plus one is `4`.  The code's own comment says
the budget is "according to the number of nodes +1", so the claim matches
the intent and the code computes `len` of the wrong operand. -/
theorem c1_cluster_redirect_budget_is_string_length :
    (Redis.parseClusterConfig { Redis.defaultConfig with Addrs := "a:1,b:2,c:3" }).MaxRedirects = 12 ∧
    ((Redis.parseClusterConfig { Redis.defaultConfig with Addrs := "a:1,b:2,c:3" }).Addrs.length : Int) + 1 = 4 := by
  constructor
  · decide
  · decide

/-- C2: `HSet` on a value whose reflect kind is pointer, composite
(array/map/struct/slice), function, or channel returns
`ErrInvalidFieldType` and executes nothing against the backend: the
returned batch list is empty. -/
theorem c2_hset_rejects_invalid_shapes (key field : String) (value : GoAny)
    (ttl : Int) (execErr : Option GoError) (cmdErrs : List (Option GoError))
    (h : value.kind = Kind.pointer ∨ value.kind = Kind.array ∨
         value.kind = Kind.map ∨ value.kind = Kind.struct ∨
         value.kind = Kind.slice ∨ value.kind = Kind.func ∨
         value.kind = Kind.chan) :
    Redis.HSet key field value ttl execErr cmdErrs = ([], some GoError.invalidFieldType) := by
  rcases h with h | h | h | h | h | h | h <;> simp [Redis.HSet, Redis.invalidKind, h]

/-- Witness for C2 at a pointer-shaped value. -/
theorem c2_hset_rejects_invalid_shapes_witness :
    ((GoAny.mk Kind.pointer 0).kind = Kind.pointer ∨ (GoAny.mk Kind.pointer 0).kind = Kind.array ∨
     (GoAny.mk Kind.pointer 0).kind = Kind.map ∨ (GoAny.mk Kind.pointer 0).kind = Kind.struct ∨
     (GoAny.mk Kind.pointer 0).kind = Kind.slice ∨ (GoAny.mk Kind.pointer 0).kind = Kind.func ∨
     (GoAny.mk Kind.pointer 0).kind = Kind.chan) ∧
    Redis.HSet "k" "f" (GoAny.mk Kind.pointer 0) 5 none [] = ([], some GoError.invalidFieldType) :=
  ⟨Or.inl rfl,
   c2_hset_rejects_invalid_shapes "k" "f" (GoAny.mk Kind.pointer 0) 5 none [] (Or.inl rfl)⟩

/-- The struct panic path is kept by the embedding: a struct whose only
field is unexported but carries a contributing `redis` tag of valid kind
panics at `reflect.Value.Interface`, exactly like the program — so a
struct dynamic type is necessary for `HSetObject` to be defined, not
sufficient. -/
theorem Redis.hsetObjectAny_panics_on_unexported_tagged_field :
    Redis.HSetObjectAny "k"
      (GoData.structVal [GoField.mk (some "a") false (GoAny.mk Kind.string 0)])
      7 none [] = Outcome.panic := rfl

/-- C10: `HSetObject`'s `data` argument must have a struct dynamic type:
on any non-struct value the reflective field enumeration
(`reflect.TypeOf(data).NumField()`) panics, so the call reaches neither
shape validation nor the backend and never produces an `InvalidFieldType`
result; hence totality holds only under the precondition that `data` is a
struct — whenever the call does not panic, `data` was a struct.  (The
struct precondition is necessary, not sufficient: see
`Redis.hsetObjectAny_panics_on_unexported_tagged_field`.) -/
theorem c10_hsetobject_requires_struct (key : String) (ttl : Int)
    (execErr : Option GoError) (cmdErrs : List (Option GoError))
    (v : Nat) (data : GoData) :
    Redis.HSetObjectAny key (GoData.nonStruct v) ttl execErr cmdErrs = Outcome.panic ∧
    (Redis.HSetObjectAny key data ttl execErr cmdErrs ≠ Outcome.panic →
      ∃ fields, data = GoData.structVal fields) := by
  refine ⟨rfl, ?_⟩
  intro h
  cases data with
  | structVal fields => exact ⟨fields, rfl⟩
  | nonStruct w => exact absurd rfl h

/-- Witness for C10: a non-struct value panics; a call on a one-field
exported struct does not panic, and the struct precondition is recovered
from it. -/
theorem c10_hsetobject_requires_struct_witness :
    Redis.HSetObjectAny "k" (GoData.nonStruct 0) 7 none [] = Outcome.panic ∧
    (∃ fields,
      GoData.structVal [GoField.mk (some "a") true (GoAny.mk Kind.string 1)] =
        GoData.structVal fields) :=
  ⟨(c10_hsetobject_requires_struct "k" 7 none [] 0
      (GoData.structVal [GoField.mk (some "a") true (GoAny.mk Kind.string 1)])).1,
   (c10_hsetobject_requires_struct "k" 7 none [] 0
      (GoData.structVal [GoField.mk (some "a") true (GoAny.mk Kind.string 1)])).2
     (by decide)⟩

/-- C3: when the backend returns a list of batch sub-results (and the
batch-execution call itself reported no error), `HSet`, `HSetObject` and
`MassDelete` all return the first sub-result error in the order the
sub-results were returned — the head of the non-nil errors — and no error
when no sub-result carries one (`head?` of the empty list). -/
theorem c3_first_subresult_error (key field : String) (value : GoAny)
    (ttl : Int) (keys : List String) (fields : List GoStructField)
    (cmdErrs : List (Option GoError))
    (hv : Redis.invalidKind value.kind = false)
    (cs : List Cmd) (hok : Redis.hsetObjectCmds key fields = Except.ok cs) :
    (Redis.HSet key field value ttl none cmdErrs).2 = (cmdErrs.filterMap id).head? ∧
    (Redis.HSetObject key fields ttl none cmdErrs).2 = (cmdErrs.filterMap id).head? ∧
    (Redis.MassDelete keys none cmdErrs).2 = (cmdErrs.filterMap id).head? := by
  refine ⟨?_, ?_, ?_⟩
  · simp [Redis.HSet, hv, Redis.firstCmdErr_eq_head_filterMap]
  · simp [Redis.HSetObject, hok, Redis.firstCmdErr_eq_head_filterMap]
  · cases cmdErrs with
    | nil => rfl
    | cons e rest => simp [Redis.MassDelete, Redis.firstCmdErr_eq_head_filterMap]

/-- Witness for C3: the second sub-result carries the first error and the
fourth carries a later one; all three operations return the second one's
error. -/
theorem c3_first_subresult_error_witness :
    Redis.invalidKind (GoAny.mk Kind.string 0).kind = false ∧
    Redis.hsetObjectCmds "k" [] = Except.ok [] ∧
    ((Redis.HSet "k" "f" (GoAny.mk Kind.string 0) 9 none
        [none, some (GoError.backend 1), none, some (GoError.backend 2)]).2 =
      (([none, some (GoError.backend 1), none, some (GoError.backend 2)] :
          List (Option GoError)).filterMap id).head? ∧
     (Redis.HSetObject "k" [] 9 none
        [none, some (GoError.backend 1), none, some (GoError.backend 2)]).2 =
      (([none, some (GoError.backend 1), none, some (GoError.backend 2)] :
          List (Option GoError)).filterMap id).head? ∧
     (Redis.MassDelete ["a", "b"] none
        [none, some (GoError.backend 1), none, some (GoError.backend 2)]).2 =
      (([none, some (GoError.backend 1), none, some (GoError.backend 2)] :
          List (Option GoError)).filterMap id).head?) :=
  ⟨rfl, rfl,
   c3_first_subresult_error "k" "f" (GoAny.mk Kind.string 0) 9 ["a", "b"] []
     [none, some (GoError.backend 1), none, some (GoError.backend 2)] rfl [] rfl⟩

/-- C4: `Get` maps the backend's `rdb.Nil` sentinel to `ErrKeyNotFound`,
propagates every other backend error unchanged and returns nil on success;
`HGetAll` returns `ErrKeyNotFound` whenever the backend reports no error
and an empty field map — which is what the backend reports both for an
absent hash and for a present-but-empty hash — regardless of what `Scan`
would have returned. -/
theorem c4_get_sentinel_mapping (e : GoError) (he : e ≠ GoError.redisNil)
    (scanErr : Option GoError) :
    Redis.Get (some GoError.redisNil) = some GoError.keyNotFound ∧
    Redis.Get (some e) = some e ∧
    Redis.Get none = none ∧
    Redis.HGetAll none [] scanErr = some GoError.keyNotFound := by
  refine ⟨rfl, ?_, rfl, rfl⟩
  cases e with
  | redisNil => exact absurd rfl he
  | keyNotFound => rfl
  | invalidFieldType => rfl
  | backend n => rfl

/-- Witness for C4 at a generic backend error. -/
theorem c4_get_sentinel_mapping_witness :
    GoError.backend 3 ≠ GoError.redisNil ∧
    (Redis.Get (some GoError.redisNil) = some GoError.keyNotFound ∧
     Redis.Get (some (GoError.backend 3)) = some (GoError.backend 3) ∧
     Redis.Get none = none ∧
     Redis.HGetAll none [] (some (GoError.backend 9)) = some GoError.keyNotFound) :=
  ⟨by decide, c4_get_sentinel_mapping (GoError.backend 3) (by decide) (some (GoError.backend 9))⟩

/-- C5: every typed accessor (`Bool`, `Bytes`, `Float64`, `Int`, `Int64`,
`Uint64`, `String`) returns `found = false` with a nil error when the
backend reports the `rdb.Nil` missing-value sentinel, `found = true` with
the decoded value on success, and propagates any other backend error with
`found = false`; the missing-value sentinel is never surfaced as an
error. -/
theorem c5_typed_accessors (b : Bool) (bs : List Nat) (fv : GoFloat64)
    (iv : Int) (jv : Int) (uv : Nat) (sv : String)
    (e : GoError) (he : e ≠ GoError.redisNil) :
    Redis.Bool (b, some GoError.redisNil) = (b, false, none) ∧
    Redis.Bool (b, some e) = (b, false, some e) ∧
    Redis.Bool (b, none) = (b, true, none) ∧
    Redis.Bytes (bs, some GoError.redisNil) = (bs, false, none) ∧
    Redis.Bytes (bs, some e) = (bs, false, some e) ∧
    Redis.Bytes (bs, none) = (bs, true, none) ∧
    Redis.Float64 (fv, some GoError.redisNil) = (fv, false, none) ∧
    Redis.Float64 (fv, some e) = (fv, false, some e) ∧
    Redis.Float64 (fv, none) = (fv, true, none) ∧
    Redis.Int (iv, some GoError.redisNil) = (iv, false, none) ∧
    Redis.Int (iv, some e) = (iv, false, some e) ∧
    Redis.Int (iv, none) = (iv, true, none) ∧
    Redis.Int64 (jv, some GoError.redisNil) = (jv, false, none) ∧
    Redis.Int64 (jv, some e) = (jv, false, some e) ∧
    Redis.Int64 (jv, none) = (jv, true, none) ∧
    Redis.Uint64 (uv, some GoError.redisNil) = (uv, false, none) ∧
    Redis.Uint64 (uv, some e) = (uv, false, some e) ∧
    Redis.Uint64 (uv, none) = (uv, true, none) ∧
    Redis.String (sv, some GoError.redisNil) = (sv, false, none) ∧
    Redis.String (sv, some e) = (sv, false, some e) ∧
    Redis.String (sv, none) = (sv, true, none) := by
  cases e with
  | redisNil => exact absurd rfl he
  | keyNotFound =>
    exact ⟨rfl, rfl, rfl, rfl, rfl, rfl, rfl, rfl, rfl, rfl, rfl, rfl, rfl,
           rfl, rfl, rfl, rfl, rfl, rfl, rfl, rfl⟩
  | invalidFieldType =>
    exact ⟨rfl, rfl, rfl, rfl, rfl, rfl, rfl, rfl, rfl, rfl, rfl, rfl, rfl,
           rfl, rfl, rfl, rfl, rfl, rfl, rfl, rfl⟩
  | backend n =>
    exact ⟨rfl, rfl, rfl, rfl, rfl, rfl, rfl, rfl, rfl, rfl, rfl, rfl, rfl,
           rfl, rfl, rfl, rfl, rfl, rfl, rfl, rfl⟩

/-- Witness for C5 at concrete decode results and a generic backend
error. -/
theorem c5_typed_accessors_witness :
    GoError.backend 7 ≠ GoError.redisNil ∧
    (Redis.Bool (true, some GoError.redisNil) = (true, false, none) ∧
     Redis.Bool (true, some (GoError.backend 7)) = (true, false, some (GoError.backend 7)) ∧
     Redis.Bool (true, none) = (true, true, none) ∧
     Redis.Bytes ([1, 2], some GoError.redisNil) = ([1, 2], false, none) ∧
     Redis.Bytes ([1, 2], some (GoError.backend 7)) = ([1, 2], false, some (GoError.backend 7)) ∧
     Redis.Bytes ([1, 2], none) = ([1, 2], true, none) ∧
     Redis.Float64 (GoFloat64.mk 3, some GoError.redisNil) = (GoFloat64.mk 3, false, none) ∧
     Redis.Float64 (GoFloat64.mk 3, some (GoError.backend 7)) = (GoFloat64.mk 3, false, some (GoError.backend 7)) ∧
     Redis.Float64 (GoFloat64.mk 3, none) = (GoFloat64.mk 3, true, none) ∧
     Redis.Int (-4, some GoError.redisNil) = (-4, false, none) ∧
     Redis.Int (-4, some (GoError.backend 7)) = (-4, false, some (GoError.backend 7)) ∧
     Redis.Int (-4, none) = (-4, true, none) ∧
     Redis.Int64 (5, some GoError.redisNil) = (5, false, none) ∧
     Redis.Int64 (5, some (GoError.backend 7)) = (5, false, some (GoError.backend 7)) ∧
     Redis.Int64 (5, none) = (5, true, none) ∧
     Redis.Uint64 (6, some GoError.redisNil) = (6, false, none) ∧
     Redis.Uint64 (6, some (GoError.backend 7)) = (6, false, some (GoError.backend 7)) ∧
     Redis.Uint64 (6, none) = (6, true, none) ∧
     Redis.String ("s", some GoError.redisNil) = ("s", false, none) ∧
     Redis.String ("s", some (GoError.backend 7)) = ("s", false, some (GoError.backend 7)) ∧
     Redis.String ("s", none) = ("s", true, none)) :=
  ⟨by decide,
   c5_typed_accessors true [1, 2] (GoFloat64.mk 3) (-4) 5 6 "s" (GoError.backend 7) (by decide)⟩

/-- Counterexample for C6 as stated: `Protocol` is a non-addressing field,
yet a configuration with `Protocol = -1` resolves to a single-node policy
with `Protocol = 0` — the field is not copied verbatim (it is copied only
when explicitly positive). -/
theorem c6_protocol_not_verbatim_counterexample :
    ({ Redis.defaultConfig with Protocol := -1 } : Config).Protocol = -1 ∧
    (Redis.parseClientConfig { Redis.defaultConfig with Protocol := -1 }).Protocol = 0 ∧
    (Redis.parseClientConfig { Redis.defaultConfig with Protocol := -1 }).Protocol ≠
      ({ Redis.defaultConfig with Protocol := -1 } : Config).Protocol := by
  refine ⟨rfl, rfl, ?_⟩
  decide

/-- C6 (amended): single-node resolution splits the address field on
commas and uses only the first resulting address; the resolved policy is
independent of the ReadOnly/RouteByLatency/RouteRandomly routing flags
(which have no single-node counterpart); every non-addressing field other
than the protocol version is copied verbatim; the protocol version is
copied only when explicitly positive, and is left at the backend default
(zero) otherwise. -/
theorem c6_single_node_resolution (cfg : Config) (b c d : Bool) :
    (Redis.parseClientConfig cfg).Addr = (Redis.goSplit cfg.Addrs ',').headD "" ∧
    Redis.parseClientConfig { cfg with ReadOnly := b, RouteByLatency := c, RouteRandomly := d } =
      Redis.parseClientConfig cfg ∧
    (Redis.parseClientConfig cfg).Network = cfg.Network ∧
    (Redis.parseClientConfig cfg).Username = cfg.Username ∧
    (Redis.parseClientConfig cfg).Password = cfg.Password ∧
    (Redis.parseClientConfig cfg).DB = cfg.DB ∧
    (Redis.parseClientConfig cfg).MaxRetries = cfg.MaxRetries ∧
    (Redis.parseClientConfig cfg).MinRetryBackoff = cfg.MinRetryBackoff ∧
    (Redis.parseClientConfig cfg).MaxRetryBackoff = cfg.MaxRetryBackoff ∧
    (Redis.parseClientConfig cfg).DialTimeout = cfg.DialTimeout ∧
    (Redis.parseClientConfig cfg).ReadTimeout = cfg.ReadTimeout ∧
    (Redis.parseClientConfig cfg).WriteTimeout = cfg.WriteTimeout ∧
    (Redis.parseClientConfig cfg).ContextTimeoutEnabled = cfg.ContextTimeoutEnabled ∧
    (Redis.parseClientConfig cfg).PoolFIFO = cfg.PoolFIFO ∧
    (Redis.parseClientConfig cfg).PoolSize = cfg.PoolSize ∧
    (Redis.parseClientConfig cfg).PoolTimeout = cfg.PoolTimeout ∧
    (Redis.parseClientConfig cfg).MinIdleConns = cfg.MinIdleConns ∧
    (Redis.parseClientConfig cfg).MaxIdleConns = cfg.MaxIdleConns ∧
    (Redis.parseClientConfig cfg).MaxActiveConns = cfg.MaxActiveConns ∧
    (Redis.parseClientConfig cfg).ConnMaxIdleTime = cfg.ConnMaxIdleTime ∧
    (Redis.parseClientConfig cfg).ConnMaxLifetime = cfg.ConnMaxLifetime ∧
    (Redis.parseClientConfig cfg).DisableIndentity = cfg.DisableIndentity ∧
    (Redis.parseClientConfig cfg).UnstableResp3 = cfg.UnstableResp3 ∧
    (Redis.parseClientConfig cfg).Protocol = (if cfg.Protocol > 0 then cfg.Protocol else 0) := by
  refine ⟨?_, rfl, rfl, rfl, rfl, rfl, rfl, rfl, rfl, rfl, rfl, rfl, rfl,
          rfl, rfl, rfl, rfl, rfl, rfl, rfl, rfl, rfl, rfl, rfl⟩
  cases h : Redis.goSplit cfg.Addrs ',' <;> simp [Redis.parseClientConfig, h]

/-- The command list built by `HSetObject`'s field loop, when it succeeds,
is exactly one `HSET` per field carrying a `redis` tag whose value is not
the exclusion marker `"-"`. -/
theorem Redis.hsetObjectCmds_ok_eq (key : GoString) (fields : List GoStructField) :
    ∀ cs : List Cmd, Redis.hsetObjectCmds key fields = Except.ok cs →
      cs = fields.filterMap (fun f =>
        match f.tag with
        | some t => if t = "-" then none else some (Cmd.hset key t f.value)
        | none => none) := by
  induction fields with
  | nil =>
    intro cs h
    simp [Redis.hsetObjectCmds] at h
    simp [← h]
  | cons f rest ih =>
    intro cs h
    rcases hf : f.tag with _ | t
    · simp [Redis.hsetObjectCmds, hf] at h
      simp [List.filterMap_cons, hf, ih cs h]
    · by_cases ht : t = "-"
      · simp [Redis.hsetObjectCmds, hf, ht] at h
        simp [List.filterMap_cons, hf, ht, ih cs h]
      · simp [Redis.hsetObjectCmds, hf, ht] at h
        cases hk : Redis.invalidKind f.value.kind
        · rw [hk] at h
          simp at h
          cases hr : Redis.hsetObjectCmds key rest
          · rw [hr] at h
            simp at h
          · rw [hr] at h
            simp at h
            simp [List.filterMap_cons, hf, ht, ← h, ih _ hr]
        · rw [hk] at h
          simp at h

/-- A field list in which every field is untagged or tagged with the
exclusion marker produces no `HSET` commands and no validation error. -/
theorem Redis.hsetObjectCmds_untagged (key : GoString) :
    ∀ fields : List GoStructField,
      (∀ f ∈ fields, f.tag = none ∨ f.tag = some "-") →
      Redis.hsetObjectCmds key fields = Except.ok [] := by
  intro fields
  induction fields with
  | nil => intro _; rfl
  | cons f rest ih =>
    intro hall
    have hrest := ih (fun g hg => hall g (List.mem_cons_of_mem _ hg))
    rcases hall f (List.mem_cons_self _ _) with hf | hf <;>
      simp [Redis.hsetObjectCmds, hf, hrest]

/-- C7: when `HSetObject`'s field loop completes, the batch holds exactly
one hash-field write per field carrying a `redis` tag whose value is not
the exclusion marker `"-"` (in declaration order); and an object none of
whose fields carries a contributing tag still executes a batch whose only
operation is the trailing expiry-set. -/
theorem c7_hsetobject_tagged_field_writes (key : String)
    (fields untagged : List GoStructField) (ttl : Int)
    (execErr : Option GoError) (cmdErrs : List (Option GoError)) (cs : List Cmd)
    (hok : Redis.hsetObjectCmds key fields = Except.ok cs)
    (hall : ∀ f ∈ untagged, f.tag = none ∨ f.tag = some "-") :
    cs = fields.filterMap (fun f =>
      match f.tag with
      | some t => if t = "-" then none else some (Cmd.hset key t f.value)
      | none => none) ∧
    (Redis.HSetObject key untagged ttl execErr cmdErrs).1 = [[Cmd.expire key ttl]] := by
  refine ⟨Redis.hsetObjectCmds_ok_eq key fields cs hok, ?_⟩
  have huok := Redis.hsetObjectCmds_untagged key untagged hall
  cases execErr <;> simp [Redis.HSetObject, huok]

/-- Witness for C7: a three-field object (tagged `"a"`, tagged `"-"`,
untagged) enqueues only the `"a"` write; an object with an untagged field
and an excluded field executes `EXPIRE` alone. -/
theorem c7_hsetobject_tagged_field_writes_witness :
    [Cmd.hset "k" "a" (GoAny.mk Kind.string 1)] =
      ([GoStructField.mk (some "a") (GoAny.mk Kind.string 1),
        GoStructField.mk (some "-") (GoAny.mk Kind.int 2),
        GoStructField.mk none (GoAny.mk Kind.pointer 3)].filterMap (fun f =>
          match f.tag with
          | some t => if t = "-" then none else some (Cmd.hset "k" t f.value)
          | none => none)) ∧
    (Redis.HSetObject "k"
        [GoStructField.mk none (GoAny.mk Kind.string 0),
         GoStructField.mk (some "-") (GoAny.mk Kind.bool 4)] 9 none []).1 =
      [[Cmd.expire "k" 9]] :=
  c7_hsetobject_tagged_field_writes "k"
    [GoStructField.mk (some "a") (GoAny.mk Kind.string 1),
     GoStructField.mk (some "-") (GoAny.mk Kind.int 2),
     GoStructField.mk none (GoAny.mk Kind.pointer 3)]
    [GoStructField.mk none (GoAny.mk Kind.string 0),
     GoStructField.mk (some "-") (GoAny.mk Kind.bool 4)]
    9 none [] [Cmd.hset "k" "a" (GoAny.mk Kind.string 1)] rfl (by decide)

/-- Counterexample for C8 as stated: in a fully successful construction
the event trace is open, tracing attach, metrics attach, ping — the
instrumentation attach happens *before* the ping, not after a successful
ping as claimed. -/
theorem c8_attach_before_ping_counterexample :
    (Redis.newClient none none none).1 =
      [Ev.connOpen, Ev.instrTracing, Ev.instrMetrics, Ev.ping] ∧
    ¬ ((Redis.newClient none none none).1.indexOf Ev.ping <
        (Redis.newClient none none none).1.indexOf Ev.instrTracing) := by
  refine ⟨rfl, ?_⟩
  decide

/-- C8 (amended): during client construction, instrumentation attach is
invoked exactly once, after the backend connection is opened but *before*
the ping; attach installs tracing instrumentation before metrics
instrumentation, and any attach failure aborts construction with an
error. -/
theorem c8_instrumentation_attach_order (te me pe : Option GoError) :
    (Redis.newClient te me pe).1.count Ev.instrTracing = 1 ∧
    (Redis.newClient te me pe).1.indexOf Ev.connOpen <
      (Redis.newClient te me pe).1.indexOf Ev.instrTracing ∧
    (Ev.ping ∈ (Redis.newClient te me pe).1 →
      (Redis.newClient te me pe).1.indexOf Ev.instrTracing <
        (Redis.newClient te me pe).1.indexOf Ev.ping) ∧
    (Ev.instrMetrics ∈ (Redis.newClient te me pe).1 →
      (Redis.newClient te me pe).1.indexOf Ev.instrTracing <
        (Redis.newClient te me pe).1.indexOf Ev.instrMetrics) ∧
    ((te ≠ none ∨ me ≠ none) → (Redis.newClient te me pe).2 = false) := by
  cases te with
  | some e =>
    have ht : (Redis.newClient (some e) me pe).1 = [Ev.connOpen, Ev.instrTracing] := rfl
    refine ⟨?_, ?_, ?_, ?_, fun _ => rfl⟩ <;> rw [ht] <;> decide
  | none =>
    cases me with
    | some e =>
      have ht : (Redis.newClient none (some e) pe).1 =
          [Ev.connOpen, Ev.instrTracing, Ev.instrMetrics] := rfl
      refine ⟨?_, ?_, ?_, ?_, fun _ => rfl⟩ <;> rw [ht] <;> decide
    | none =>
      cases pe with
      | some e =>
        have ht : (Redis.newClient none none (some e)).1 =
            [Ev.connOpen, Ev.instrTracing, Ev.instrMetrics, Ev.ping] := rfl
        refine ⟨?_, ?_, ?_, ?_, fun _ => rfl⟩ <;> rw [ht] <;> decide
      | none =>
        refine ⟨by decide, by decide, by decide, by decide,
                fun h => by rcases h with h | h <;> exact absurd rfl h⟩

/-- Witness for C8 (amended): a successful construction attaches once,
between open and ping, tracing before metrics; a failed tracing attach
aborts construction. -/
theorem c8_instrumentation_attach_order_witness :
    (Redis.newClient none none none).1.count Ev.instrTracing = 1 ∧
    (Redis.newClient none none none).1.indexOf Ev.instrTracing <
      (Redis.newClient none none none).1.indexOf Ev.ping ∧
    (Redis.newClient none none none).1.indexOf Ev.instrTracing <
      (Redis.newClient none none none).1.indexOf Ev.instrMetrics ∧
    (Redis.newClient (some (GoError.backend 3)) none none).2 = false :=
  ⟨(c8_instrumentation_attach_order none none none).1,
   (c8_instrumentation_attach_order none none none).2.2.1 (by decide),
   (c8_instrumentation_attach_order none none none).2.2.2.1 (by decide),
   (c8_instrumentation_attach_order (some (GoError.backend 3)) none none).2.2.2.2
     (Or.inl (by decide))⟩

/-- C9: with an explicit client id the stored identity is the id, a
delimiter, and a freshly generated token, and `getID` returns that stored
identity unchanged at any later generator state (fixed for the client's
lifetime); with no explicit id, `getID` invokes the generator afresh on
every call — nothing is cached — and two successive lookups can yield
different values, exhibited at generator state 0. -/
theorem c9_identity_resolution (id cid : String) (gen g1 : Nat)
    (hid : id ≠ "") :
    (Redis.WithClientID id cid gen).1 = id ++ "-" ++ (Redis.GenerateUUID gen).1 ∧
    (Redis.getID (Redis.WithClientID id cid gen).1 g1).1 =
      (Redis.WithClientID id cid gen).1 ∧
    Redis.getID "" g1 = Redis.GenerateUUID g1 ∧
    (Redis.getID "" 0).1 ≠ (Redis.getID "" ((Redis.getID "" 0).2)).1 := by
  have h1 : (Redis.WithClientID id cid gen).1 = id ++ "-" ++ (Redis.GenerateUUID gen).1 := by
    simp [Redis.WithClientID, hid]
  have hne : (Redis.WithClientID id cid gen).1 ≠ "" := by
    rw [h1]
    intro h
    have hl := congrArg String.length h
    rw [String.length_append, String.length_append] at hl
    have hmid : ("-" : String).length = 1 := rfl
    have hemp : ("" : String).length = 0 := rfl
    omega
  refine ⟨h1, ?_, by simp [Redis.getID], by decide⟩
  simp [Redis.getID, hne]

/-- Witness for C9 at id `"svc"` and generator states 0 and 5. -/
theorem c9_identity_resolution_witness :
    ("svc" : String) ≠ "" ∧
    ((Redis.WithClientID "svc" "" 0).1 = "svc" ++ "-" ++ (Redis.GenerateUUID 0).1 ∧
     (Redis.getID (Redis.WithClientID "svc" "" 0).1 5).1 =
       (Redis.WithClientID "svc" "" 0).1 ∧
     Redis.getID "" 5 = Redis.GenerateUUID 5 ∧
     (Redis.getID "" 0).1 ≠ (Redis.getID "" ((Redis.getID "" 0).2)).1) :=
  ⟨by decide, c9_identity_resolution "svc" "" 0 5 (by decide)⟩
